import Mathlib

/-!
# Verification of the arXiv ingestion and segmentation pipeline

This file is a shallow embedding, in Lean 4, of the core of the
knowledge-acquisition system: the section-segmentation state machine, the
rule-based entity/relation derivation, the batch orchestration status logic,
the retry/backoff loop, the search-date validation and the arXiv-id
normalisation, all translated from
`src/data_collection/arxiv/connector.py`, `src/data_collection/arxiv_connector.py`
and `src/knowledge_extraction/entity_model.py`.

Modelling conventions:
* Python strings are Lean `String`s; most character-level work is done on
  `List Char` (the `data` field) so that everything evaluates by kernel
  reduction.
* `uuid4()` identifiers are modelled as (distinct) natural numbers assigned
  sequentially; no verified property depends on the actual UUID values, only
  on freshness/distinctness.
* Python `float` confidences are modelled as `ℚ`.
* Raised exceptions are modelled with `Except String` (or an explicit error
  type where the error kind matters); I/O-free oracles stand for the awaited
  network / PDF stages.
* Python's `\s` (Unicode whitespace) is modelled by `Char.isWhitespace`; the
  difference is irrelevant for the ASCII/Japanese inputs considered here.
-/

deriving instance DecidableEq for Except

namespace KAS

/-! ## Generic character/list helpers (Python `str` primitives) -/

/-- `s.split(sep)` on character lists: splits at every occurrence of `sep`,
keeping empty pieces, like Python `str.split` with an explicit separator
(`"".split` gives `[""]`). -/
def splitOnChar (sep : Char) : List Char → List (List Char)
  | [] => [[]]
  | c :: cs =>
    if c = sep then [] :: splitOnChar sep cs
    else
      match splitOnChar sep cs with
      | g :: gs => (c :: g) :: gs
      | [] => [[c]]

/-- Python `str.strip()` on character lists (Unicode whitespace approximated
by `Char.isWhitespace`). -/
def trimChars (cs : List Char) : List Char :=
  ((cs.dropWhile Char.isWhitespace).reverse.dropWhile Char.isWhitespace).reverse

/-- A line that consists of whitespace only (`\s*`). -/
def isBlankChars (cs : List Char) : Bool :=
  cs.all Char.isWhitespace

/-! ## `SegmentType` (entity_model.py) and the segmentation data model

`SegmentType` is the closed `str`-enum of `entity_model.py`.  Note that it has
**no** `BACKGROUND` and no `EXPERIMENT` member. -/

inductive SegmentType where
  | paragraph | heading | table | list | figure | code | quote
  | abstract | introduction | method | result | discussion | conclusion
  | reference
deriving DecidableEq, Repr

/-- The `str` value of each `SegmentType` enum member in `entity_model.py`. -/
def segTypeName : SegmentType → String
  | .paragraph => "paragraph"
  | .heading => "heading"
  | .table => "table"
  | .list => "list"
  | .figure => "figure"
  | .code => "code"
  | .quote => "quote"
  | .abstract => "abstract"
  | .introduction => "introduction"
  | .method => "method"
  | .result => "result"
  | .discussion => "discussion"
  | .conclusion => "conclusion"
  | .reference => "reference"

/-- `Segment` (entity_model.py): pydantic model with `segment_id`,
`document_id`, `content`, `segment_type`, `position` (UUIDs as `Nat`;
`metadata`, `vector_embedding` and `created_at` are not relevant to any
verified claim and are omitted). -/
structure Segment where
  segment_id : Nat
  document_id : Nat
  content : String
  segment_type : SegmentType
  position : Nat
deriving DecidableEq, Repr

/-! ## The heading-pattern table (`ArxivConnector.section_patterns`)

The connector holds an ordered dict of nine regexes, tried with `re.match`
(anchored at the start, a prefix match suffices) under `re.IGNORECASE`; the
first matching entry wins.  Each regex is of the shape
`(?:kw1|kw2|...)(?:\s|:|：|\n)+`, i.e. one of several keyword spellings
followed by at least one whitespace/colon character.  Since `re.match` only
needs *some* match and alternation backtracks, an entry matches a line iff
some keyword spelling is a prefix of the line and is followed by at least one
separator character. -/

/-- The names of the nine `section_patterns` entries, in dict (insertion)
order — the priority order of the matcher. -/
inductive SectionName where
  | abstract | introduction | background | method | experiment
  | result | discussion | conclusion | reference
deriving DecidableEq, Repr

/-- The Python string key of each `section_patterns` entry. -/
def sectionNameStr : SectionName → String
  | .abstract => "abstract"
  | .introduction => "introduction"
  | .background => "background"
  | .method => "method"
  | .experiment => "experiment"
  | .result => "result"
  | .discussion => "discussion"
  | .conclusion => "conclusion"
  | .reference => "reference"

/-- The separator class `(?:\s|:|：|\n)` that every pattern requires (at
least once) after the keyword. -/
def isHeadSep (c : Char) : Bool :=
  c.isWhitespace || c = ':' || c = '：'

/-- Strip a literal keyword from the front of a character list. -/
def stripLit : List Char → List Char → Option (List Char)
  | [], cs => some cs
  | _ :: _, [] => none
  | k :: ks, c :: cs => if c = k then stripLit ks cs else none

/-- `rest` begins with at least one separator character (`(?:\s|:|：|\n)+`
needs one; nothing after it is constrained because `re.match` is a prefix
match). -/
def headSep1 : List Char → Bool
  | [] => false
  | c :: _ => isHeadSep c

/-- A single keyword alternative followed by the separator class. -/
def matchWord (w : String) (cs : List Char) : Bool :=
  match stripLit w.data cs with
  | some rest => headSep1 rest
  | none => false

/-- Any of several keyword alternatives (regex alternation with
backtracking = existential over the alternatives). -/
def wordsMatch (ws : List String) (cs : List Char) : Bool :=
  ws.any fun w => matchWord w cs

/-- `w1\s+w2` followed by the separator class (used by `previous\s+work`
and `related\s+work` in the `background` pattern). -/
def matchTwoWords (w1 w2 : String) (cs : List Char) : Bool :=
  match stripLit w1.data cs with
  | some (c :: rest) =>
    c.isWhitespace &&
      (match stripLit w2.data (rest.dropWhile Char.isWhitespace) with
       | some r2 => headSep1 r2
       | none => false)
  | _ => false

/-- Separator class `(?:\s|．|\n)` of the numbered-introduction alternative. -/
def isIntroNumSep (c : Char) : Bool :=
  c.isWhitespace || c = '．'

/-- The `1\.(?:\s|．|\n)+(?:introduction|はじめに|序論)` alternative of the
`introduction` pattern (followed by the common separator class). -/
def matchNumberedIntro (cs : List Char) : Bool :=
  match stripLit ['1', '.'] cs with
  | some (c :: rest) =>
    isIntroNumSep c &&
      wordsMatch ["introduction", "はじめに", "序論"]
        (rest.dropWhile isIntroNumSep)
  | _ => false

/-- Whether a (lower-cased) line matches one `section_patterns` entry. -/
def matchesSection : SectionName → List Char → Bool
  | .abstract, cs => wordsMatch ["abstract", "概要", "要約"] cs
  | .introduction, cs =>
    wordsMatch ["introduction", "はじめに", "序論"] cs || matchNumberedIntro cs
  | .background, cs =>
    wordsMatch ["background", "背景", "関連研究"] cs ||
      matchTwoWords "previous" "work" cs || matchTwoWords "related" "work" cs
  | .method, cs =>
    wordsMatch ["method", "methodology", "approach",
      "提案手法", "手法", "アプローチ", "方法"] cs
  | .experiment, cs => wordsMatch ["experiment", "evaluation", "実験", "評価"] cs
  | .result, cs => wordsMatch ["result", "実験結果", "結果"] cs
  | .discussion, cs => wordsMatch ["discussion", "考察"] cs
  | .conclusion, cs => wordsMatch ["conclusion", "おわりに", "結論"] cs
  | .reference, cs =>
    wordsMatch ["reference", "bibliography", "参考文献", "引用文献"] cs

/-- The table order in which `segment_paper` tries the entries. -/
def sectionOrder : List SectionName :=
  [.abstract, .introduction, .background, .method, .experiment,
   .result, .discussion, .conclusion, .reference]

/-- The section-heading detector of `segment_paper`: lower-case the line
(`re.IGNORECASE`) and return the first matching entry in table order, or
`none`. -/
def detectSection (line : List Char) : Option SectionName :=
  sectionOrder.find? fun s => matchesSection s (line.map Char.toLower)

/-- `getattr(SegmentType, section_name.upper(), SegmentType.PARAGRAPH)`:
the `SegmentType` member with the section's name, or `PARAGRAPH` when the
enum has no such member (which is the case for `BACKGROUND` and
`EXPERIMENT`). -/
def sectionSegType : SectionName → SegmentType
  | .abstract => .abstract
  | .introduction => .introduction
  | .background => .paragraph
  | .method => .method
  | .experiment => .paragraph
  | .result => .result
  | .discussion => .discussion
  | .conclusion => .conclusion
  | .reference => .reference

/-! ## The segmentation state machine (`ArxivConnector.segment_paper`)

`segment_paper` first emits a synthetic `abstract` segment from the paper's
abstract metadata at position 0, then runs a line machine over
`text_content.split('\n')` with state (open-section name, accumulated
content, next position), finally emits the last open segment, and appends
paragraph-fallback segments when fewer than 3 segments resulted.
`uuid4()` segment ids are modelled by the (distinct) position values. -/

structure SegMachine where
  segments : List Segment
  position : Nat
  currentType : Option SectionName
  currentContent : List Char
deriving Repr

/-- Emit the currently open segment, if one is open and its stripped content
is non-empty (`if current_segment_type and current_segment_content.strip()`),
with `segment_type = getattr(SegmentType, name.upper(), PARAGRAPH)`. -/
def closeCurrent (docId : Nat) (m : SegMachine) : SegMachine :=
  match m.currentType with
  | some t =>
    if (trimChars m.currentContent).isEmpty then m
    else
      { m with
        segments := m.segments ++
          [{ segment_id := m.position, document_id := docId,
             content := String.mk (trimChars m.currentContent),
             segment_type := sectionSegType t, position := m.position }],
        position := m.position + 1 }
  | none => m

/-- One iteration of the `for line in lines` loop of `segment_paper`:
a heading match closes the open segment and opens a new one seeded with the
heading line; otherwise the line is appended to the open segment; a non-blank
line before any heading opens an implicit `introduction` segment, but only
when `not any(segments)` — i.e. only when the segment list is still empty. -/
def stepLine (docId : Nat) (m : SegMachine) (line : List Char) : SegMachine :=
  match detectSection line with
  | some s =>
    let m' := closeCurrent docId m
    { m' with currentType := some s, currentContent := line ++ ['\n'] }
  | none =>
    match m.currentType with
    | some _ => { m with currentContent := m.currentContent ++ line ++ ['\n'] }
    | none =>
      if !(trimChars line).isEmpty && m.segments.isEmpty then
        { m with currentType := some .introduction,
                 currentContent := m.currentContent ++ line ++ ['\n'] }
      else m

/-- The synthetic abstract segment built from `paper["summary"]`, emitted
first at position 0. -/
def abstractSeg (abstract : String) : Segment :=
  { segment_id := 0, document_id := 0, content := abstract,
    segment_type := .abstract, position := 0 }

/-- The machine state right after the synthetic abstract segment was
appended (`position = 1`, no open section). -/
def initMachine (abstract : String) : SegMachine :=
  { segments := [abstractSeg abstract], position := 1,
    currentType := none, currentContent := [] }

/-- The segments produced by the heading machine (synthetic abstract, the
per-line loop, and the final emission of the last open segment) — everything
of `segment_paper` before the paragraph fallback. -/
def structuralSegments (abstract text_content : String) : List Segment :=
  (closeCurrent 0
    ((splitOnChar '\n' text_content.data).foldl (stepLine 0)
      (initMachine abstract))).segments

/-! ### The paragraph fallback

`re.split(r'\n\s*\n', text_content)`: a match is a newline, optional
whitespace, then a newline.  In terms of `text.split('\n')`, the matches are
exactly the maximal runs of whitespace-only lines that lie strictly between
two newlines — i.e. blank lines other than the very first and very last line.
`paraGo`/`paraNew` regroup the lines accordingly (`paraGo` is inside a group,
`paraNew` is skipping a separator run), and the groups are re-joined with
newlines. -/

/-- Regroup the lines at the separator runs.  `inSep = false` means a group
with accumulated (reversed) lines `cur` is open; `inSep = true` means the
previous group was just closed by a separator run (and `cur = []`).  The
first and the last line are never separators (they are not enclosed by two
newlines), which is why the one-line case closes the group
unconditionally. -/
def paraGroups (inSep : Bool) (cur : List (List Char)) :
    List (List Char) → List (List (List Char))
  | [] => [cur.reverse]
  | [l] => if inSep then [[l]] else [(l :: cur).reverse]
  | l :: l2 :: ls =>
    if isBlankChars l then
      if inSep then paraGroups true [] (l2 :: ls)
      else cur.reverse :: paraGroups true [] (l2 :: ls)
    else paraGroups false (l :: cur) (l2 :: ls)

/-- Re-join the lines of one paragraph group with `'\n'`. -/
def joinLines : List (List Char) → List Char
  | [] => []
  | [l] => l
  | l :: ls => l ++ '\n' :: joinLines ls

/-- `re.split(r'\n\s*\n', text)` (see the note above `paraGo`). -/
def splitParagraphs (cs : List Char) : List (List Char) :=
  (match splitOnChar '\n' cs with
   | [] => [[]]
   | l :: ls => paraGroups false [l] ls).map joinLines

/-- The fallback loop: `for i, para in enumerate(paragraphs)`, skipping
paragraphs whose stripped length is `< 50`, appending the rest as
`paragraph` segments at `position = len(segments) + i`.  Note that a skipped
paragraph still advances `i`, so the emitted positions can have gaps. -/
def fallbackSegments (base : Nat) (text_content : String) : List Segment :=
  ((splitParagraphs text_content.data).enum.filter
      (fun ip => 50 ≤ (trimChars ip.2).length)).map
    fun ip =>
      { segment_id := base + ip.1, document_id := 0,
        content := String.mk (trimChars ip.2),
        segment_type := SegmentType.paragraph, position := base + ip.1 }

/-- `ArxivConnector.segment_paper(arxiv_id, text_content)` with the paper's
abstract metadata passed in as `abstract` (in the source it is fetched via
`get_paper_by_id` as `paper["summary"]`). -/
def segment_paper (abstract text_content : String) : List Segment :=
  let segs := structuralSegments abstract text_content
  if segs.length < 3 then segs ++ fallbackSegments segs.length text_content
  else segs

/-! ## Entities and relations (`entity_model.py`, `connector.py`) -/

/-- `EntityType` (entity_model.py).  Note that the enum **has** a `PAPER`
member but no `BACKGROUND`-like segment notion; the full member list is kept
for fidelity. -/
inductive EntityType where
  | concept | person | organization | technology | product | method
  | dataset | algorithm | term | location | event | paper | journal
  | conference
deriving DecidableEq, Repr

/-- `RelationType` (entity_model.py). -/
inductive RelationType where
  | includes | uses | opposes | similar_to | precedes | causes | part_of
  | cites | authored_by | based_on | improves
deriving DecidableEq, Repr

/-- `Entity` (entity_model.py): UUIDs as `Nat`, confidence as `ℚ`
(`metadata`, `vector_embedding` and the timestamps are irrelevant to the
verified claims and omitted).  The `confidence` field carries the pydantic
constraint `ge=0.0, le=1.0`; the structurally derived entities below always
pass `1.0`, which satisfies it. -/
structure Entity where
  entity_id : Nat
  name : String
  entity_type : EntityType
  aliases : List String
  description : Option String
  source_segments : List Nat
  confidence : ℚ
deriving DecidableEq, Repr

/-- `Relation` (entity_model.py), same conventions as `Entity`. -/
structure Relation where
  relation_id : Nat
  source_entity_id : Nat
  target_entity_id : Nat
  relation_type : RelationType
  description : Option String
  source_segments : List Nat
  confidence : ℚ
deriving DecidableEq, Repr

/-- Constructing a `Relation` runs pydantic validation: the field constraint
`confidence ∈ [0,1]` first, then the `model_validator`
`validate_different_entities`, which rejects `source_entity_id =
target_entity_id` with `"Source and target entities must be different"`. -/
def mkRelation (rid src tgt : Nat) (rt : RelationType) (desc : Option String)
    (segs : List Nat) (conf : ℚ) : Except String Relation :=
  if ¬(0 ≤ conf ∧ conf ≤ 1) then
    .error "confidence must be within [0, 1]"
  else if src = tgt then
    .error "Source and target entities must be different"
  else
    .ok { relation_id := rid, source_entity_id := src, target_entity_id := tgt,
          relation_type := rt, description := desc, source_segments := segs,
          confidence := conf }

/-- The paper metadata dict returned by `get_paper_by_id`, restricted to the
fields the derivation steps read. -/
structure PaperMeta where
  id : String
  title : String
  authors : List String
  summary : String
  published : String
  categories : List String
deriving DecidableEq, Repr

/-- The list comprehension
`[segment.segment_id for segment in segments if segment.segment_type == SegmentType.ABSTRACT]`
used as `source_segments` by all three entity kinds. -/
def abstractSegIds (segments : List Segment) : List Nat :=
  (segments.filter fun s => decide (s.segment_type = SegmentType.abstract)).map
    (·.segment_id)

/-- The `paper` entity of `extract_entities` (name = title, description =
abstract, confidence 1.0). -/
def paperEntity (paper : PaperMeta) (absIds : List Nat) : Entity :=
  { entity_id := 0, name := paper.title, entity_type := .paper, aliases := [],
    description := some paper.summary, source_segments := absIds,
    confidence := 1 }

/-- The body of the `for author in paper["authors"]` loop of
`extract_entities` (`ia` is the fresh-id index paired with the author
name). -/
def personEntity (title : String) (absIds : List Nat) (ia : Nat × String) :
    Entity :=
  { entity_id := 1 + ia.1, name := ia.2, entity_type := .person, aliases := [],
    description := some ("Author of '" ++ title ++ "'"),
    source_segments := absIds, confidence := 1 }

/-- The body of the `for category in paper["categories"]` loop of
`extract_entities`. -/
def conceptEntity (title : String) (numAuthors : Nat) (absIds : List Nat)
    (ic : Nat × String) : Entity :=
  { entity_id := 1 + numAuthors + ic.1, name := ic.2, entity_type := .concept,
    aliases := [],
    description := some ("arXiv category for paper '" ++ title ++ "'"),
    source_segments := absIds, confidence := 1 }

/-- `ArxivConnector.extract_entities(arxiv_id, segments)` with the paper
metadata passed in: one `paper` entity, one `person` entity per author, one
`concept` entity per category, all with confidence `1.0` and with
`source_segments` the ids of the abstract-typed segments.  Fresh `uuid4()`
entity ids are modelled as the sequential numbers `0, 1, …`. -/
def extract_entities (paper : PaperMeta) (segments : List Segment) :
    List Entity :=
  let absIds := abstractSegIds segments
  paperEntity paper absIds ::
    (paper.authors.enum.map (personEntity paper.title absIds) ++
      paper.categories.enum.map
        (conceptEntity paper.title paper.authors.length absIds))

/-- The relation-building loops of `extract_relations` append one relation at
a time; a pydantic `ValueError` raised by a construction aborts the whole
call (it is wrapped into `RelationExtractionError` by the handler).  This is
exactly error-propagating list traversal. -/
def exceptMapList (f : α → Except String β) : List α → Except String (List β)
  | [] => .ok []
  | x :: xs =>
    match f x with
    | .error e => .error e
    | .ok y =>
      match exceptMapList f xs with
      | .error e => .error e
      | .ok ys => .ok (y :: ys)

/-- The body of the author-relations loop of `extract_relations`: one
`authored_by` relation construction, source = the paper entity, target = the
person entity (the `uuid4()` relation id is modelled by the target's id —
its value is irrelevant to every verified claim). -/
def mkAuthoredBy (pe a : Entity) : Except String Relation :=
  mkRelation a.entity_id pe.entity_id a.entity_id RelationType.authored_by
    (some ("'" ++ pe.name ++ "' is authored by " ++ a.name))
    pe.source_segments 1

/-- The body of the category-relations loop of `extract_relations`: one
`part_of` relation construction. -/
def mkPartOf (pe c : Entity) : Except String Relation :=
  mkRelation c.entity_id pe.entity_id c.entity_id RelationType.part_of
    (some ("'" ++ pe.name ++ "' is part of category " ++ c.name))
    pe.source_segments 1

/-- `ArxivConnector.extract_relations(arxiv_id, entities)`: find the first
`paper`-typed entity (`next(..., None)`); with none, return `[]`; otherwise
emit one `authored_by` relation per `person` entity and then one `part_of`
relation per `concept` entity, each sourced at the paper entity. -/
def extract_relations (_arxiv_id : String) (entities : List Entity) :
    Except String (List Relation) :=
  match entities.find? (fun e => decide (e.entity_type = EntityType.paper)) with
  | none => .ok []
  | some pe =>
    let persons :=
      entities.filter fun e => decide (e.entity_type = EntityType.person)
    let concepts :=
      entities.filter fun e => decide (e.entity_type = EntityType.concept)
    match exceptMapList (mkAuthoredBy pe) persons with
    | .error e => .error e
    | .ok authored =>
      match exceptMapList (mkPartOf pe) concepts with
      | .error e => .error e
      | .ok partofs => .ok (authored ++ partofs)

/-! ## The batch orchestrator (`ArxivConnector.collect_papers`)

Per paper, the orchestrator nests three `try` blocks: PDF download
(raising `PDFDownloadError`), text extraction (raising
`TextExtractionError`), and segmentation (raising `SegmentationError`).
The three awaited stages are modelled as `Except`-valued oracles carried in
the per-paper input (each stage in the source wraps every lower-level
failure into its own error kind, so these three cover all failures). -/

/-- One paper of a batch: its metadata fields used by the result record and
the outcomes of its three fallible pipeline stages (download → pdf path,
extraction → text, segmentation → segments). -/
structure PaperStages where
  id : String
  title : String
  download : Except String String
  extractText : Except String String
  segmentation : Except String (List Segment)
deriving Repr

/-- The per-paper result record built by `collect_papers`. -/
structure PaperResult where
  id : String
  title : String
  status : String
  errors : List String
  pdf_path : Option String
  text_extracted : Option Bool
  text_length : Option Nat
  segments_count : Option Nat
deriving DecidableEq, Repr

/-- The body of the `for paper in papers` loop of `collect_papers`:
`PDFDownloadError → status "failed"`, `TextExtractionError → status
"partial"` (with `text_extracted = False`), `SegmentationError → status
"partial"`, otherwise `"success"`. -/
def processPaper (p : PaperStages) : PaperResult :=
  match p.download with
  | .error e =>
    { id := p.id, title := p.title, status := "failed",
      errors := ["PDF download error: " ++ e], pdf_path := none,
      text_extracted := none, text_length := none, segments_count := none }
  | .ok path =>
    match p.extractText with
    | .error e =>
      { id := p.id, title := p.title, status := "partial",
        errors := ["Text extraction error: " ++ e], pdf_path := some path,
        text_extracted := some false, text_length := none,
        segments_count := none }
    | .ok text =>
      match p.segmentation with
      | .error e =>
        { id := p.id, title := p.title, status := "partial",
          errors := ["Segmentation error: " ++ e], pdf_path := some path,
          text_extracted := some true, text_length := some text.length,
          segments_count := none }
      | .ok segs =>
        { id := p.id, title := p.title, status := "success", errors := [],
          pdf_path := some path, text_extracted := some true,
          text_length := some text.length, segments_count := some segs.length }

/-- `collect_papers` after a successful search: every paper of the batch is
processed and its outcome appended to `results` — a per-paper failure never
aborts the loop. -/
def collect_papers (papers : List PaperStages) : List PaperResult :=
  papers.map processPaper

/-! ## The retry decorator (`arxiv_connector.retry_on_failure`)

`retry_on_failure(max_retries, delay, backoff, exceptions)` loops: call the
wrapped function; on a retryable exception increment `retries`, re-raise
once `retries > max_retries`, otherwise sleep `current_delay` and multiply
it by `backoff`.  For a wrapped function that always raises a retryable
error the whole behaviour is the trace below (`k` counts the retries still
allowed, i.e. `max_retries - retries`). -/

/-- The observable trace of the retry loop: how many times the wrapped
function was attempted, and the successive sleep durations. -/
structure RetryTrace where
  attempts : Nat
  delays : List ℚ
deriving DecidableEq, Repr

/-- The retry loop specialised to a wrapped function that always raises a
retryable error, unrolled on the number `k` of retries still allowed. -/
def retryAlwaysFailGo (backoff : ℚ) : Nat → ℚ → RetryTrace
  | 0, _ => { attempts := 1, delays := [] }
  | k + 1, cur =>
    let r := retryAlwaysFailGo backoff k (cur * backoff)
    { attempts := r.attempts + 1, delays := cur :: r.delays }

/-- `retry_on_failure(max_retries, delay, backoff)` applied to an
always-failing retryable request. -/
def retryAlwaysFail (max_retries : Nat) (delay backoff : ℚ) : RetryTrace :=
  retryAlwaysFailGo backoff max_retries delay

/-! ## Date validation and `search_papers` (`arxiv/connector.py`)

`search_papers` validates `date_from`/`date_to` with
`datetime.strptime(d, "%Y-%m-%d")` while building the query string, raising
`ValueError` on failure; the blanket `except Exception` handler of
`search_papers` converts any exception into
`ArxivAPIError(500, "Error searching arXiv API: " + str(e))`.  The network
request (`arxiv.Search` execution) happens only after the query string was
built, so a date error means no request is ever issued: the model returns
either `.ok` with the request that would be issued, or `.error` with the
raised error. -/

/-- Whether a year is a leap year (the Gregorian rule used by
`datetime`). -/
def isLeap (y : Nat) : Bool :=
  y % 4 = 0 && (y % 100 ≠ 0 || y % 400 = 0)

/-- Days in a month as `datetime` validates them. -/
def daysInMonth (y m : Nat) : Nat :=
  if m = 2 then (if isLeap y then 29 else 28)
  else if m = 4 ∨ m = 6 ∨ m = 9 ∨ m = 11 then 30
  else 31

/-- Digit-string to number. -/
def digitsToNat (cs : List Char) : Nat :=
  cs.foldl (fun n c => n * 10 + (c.toNat - '0'.toNat)) 0

/-- `datetime.strptime(s, "%Y-%m-%d")` succeeds: `%Y` is exactly four
digits, `%m`/`%d` are one or two digits (values 1–12 / 1–31, leading zero
allowed), the whole string must be consumed, and the resulting triple must
be a real calendar date with year ≥ 1 (`datetime.MINYEAR`). -/
def validDate (s : String) : Bool :=
  match splitOnChar '-' s.data with
  | [ys, ms, ds] =>
    if ys.length = 4 ∧ ys.all Char.isDigit ∧
        ms.all Char.isDigit ∧ ds.all Char.isDigit ∧
        1 ≤ ms.length ∧ ms.length ≤ 2 ∧ 1 ≤ ds.length ∧ ds.length ≤ 2 ∧
        1 ≤ digitsToNat ys ∧
        1 ≤ digitsToNat ms ∧ digitsToNat ms ≤ 12 ∧
        1 ≤ digitsToNat ds ∧
        digitsToNat ds ≤ daysInMonth (digitsToNat ys) (digitsToNat ms)
    then true else false
  | _ => false

/-- The error kinds `search_papers`/`get_paper_by_id` can raise
(`exceptions.py`): `ArxivAPIError(status_code, message)` and
`DataNotFoundError(message)`. -/
inductive ArxivErr where
  | apiError (status : Nat) (msg : String)
  | dataNotFound (msg : String)
deriving DecidableEq, Repr

/-- The retryable classification of the codebase: the
`retry_on_failure` decorator is parameterised with
`exceptions=(ArxivAPIError,)`, so exactly the `ArxivAPIError` kind is
retried (and a 500 status is the 5xx "transient" class of the design's
taxonomy); `DataNotFoundError` is never retried. -/
def isRetryableError : ArxivErr → Bool
  | .apiError _ _ => true
  | .dataNotFound _ => false

/-- The outbound request `search_papers` would issue: the final query string
and the result cap.  Producing a `SearchRequest` is the model of "a network
call is attempted". -/
structure SearchRequest where
  search_query : String
  max_results : Nat
deriving DecidableEq, Repr

/-- The `date_to` half of the date-range block: append `date_to` (validated)
or today's date, closing the bracket. -/
def finishDateQuery (sq dq : String) (date_to : Option String)
    (today : String) (max_results : Nat) : Except ArxivErr SearchRequest :=
  match date_to with
  | some dt =>
    if validDate dt then .ok { search_query := sq ++ dq ++ dt ++ "]",
                               max_results := max_results }
    else .error (.apiError 500
      ("Error searching arXiv API: Invalid date_to format: " ++ dt ++
        ", expected YYYY-MM-DD"))
  | none => .ok { search_query := sq ++ dq ++ today ++ "]",
                  max_results := max_results }

/-- `ArxivConnector.search_papers(query, category, date_from, date_to,
max_results)` up to the point where the outbound request is issued.
`today` stands for `date.today().strftime('%Y-%m-%d')`. -/
def search_papers (query : String) (category : Option String)
    (date_from date_to : Option String) (today : String)
    (max_results : Nat) : Except ArxivErr SearchRequest :=
  let sq := match category with
    | some c => query ++ " AND cat:" ++ c
    | none => query
  if date_from.isSome || date_to.isSome then
    match date_from with
    | some df =>
      if validDate df then
        finishDateQuery sq (" AND submittedDate:[" ++ df ++ " TO ") date_to
          today max_results
      else .error (.apiError 500
        ("Error searching arXiv API: Invalid date_from format: " ++ df ++
          ", expected YYYY-MM-DD"))
    | none => finishDateQuery sq " AND submittedDate:[ TO " date_to today
        max_results
  else .ok { search_query := sq, max_results := max_results }

/-! ## arXiv-id normalisation (`ArxivConnector.get_paper_by_id`) -/

/-- `re.sub(r'v\d+$', '', arxiv_id)`: remove a trailing `v` followed by one
or more digits (a version suffix), if present.  Implemented by inspecting
the maximal trailing digit run and the character before it. -/
def cleanArxivId (s : String) : String :=
  let rev := s.data.reverse
  match rev.takeWhile Char.isDigit, rev.dropWhile Char.isDigit with
  | _ :: _, 'v' :: rest => String.mk rest.reverse
  | _, _ => s

/-- The identifier `get_paper_by_id` actually queries the source with
(`arxiv.Search(id_list=[clean_id])`). -/
def queriedArxivId (arxiv_id : String) : String :=
  cleanArxivId arxiv_id

/-! ## Shared helper lemmas -/

theorem filter_map_all {α β : Type _} {f : α → β} {p : β → Bool}
    (h : ∀ a, p (f a) = true) :
    ∀ l : List α, (l.map f).filter p = l.map f := by
  intro l
  induction l with
  | nil => rfl
  | cons a t ih => simp [List.filter_cons, h a, ih]

theorem filter_map_none {α β : Type _} {f : α → β} {p : β → Bool}
    (h : ∀ a, p (f a) = false) :
    ∀ l : List α, (l.map f).filter p = [] := by
  intro l
  induction l with
  | nil => rfl
  | cons a t ih => simp [List.filter_cons, h a, ih]

theorem find?_eq_head_filter {α : Type _} (p : α → Bool) :
    ∀ l : List α, l.find? p = (l.filter p).head? := by
  intro l
  induction l with
  | nil => rfl
  | cons a t ih =>
    rw [List.find?_cons, List.filter_cons]
    by_cases h : p a
    · simp [h]
    · simp only [h]
      simpa using ih

theorem exceptMapList_ok {α β : Type _} {f : α → Except String β} {g : α → β} :
    ∀ l : List α, (∀ x ∈ l, f x = .ok (g x)) →
      exceptMapList f l = .ok (l.map g) := by
  intro l
  induction l with
  | nil => intro _; rfl
  | cons a t ih =>
    intro h
    have ha := h a (by simp)
    have ht := ih fun x hx => h x (by simp [hx])
    simp [exceptMapList, ha, ht]

theorem takeWhile_append_all {p : Char → Bool} {l₁ : List Char}
    (h : ∀ c ∈ l₁, p c = true) (l₂ : List Char) :
    (l₁ ++ l₂).takeWhile p = l₁ ++ l₂.takeWhile p := by
  induction l₁ with
  | nil => simp
  | cons a t ih =>
    have ha := h a (by simp)
    simp only [List.cons_append, List.takeWhile_cons, ha, if_true]
    simp [ih fun c hc => h c (by simp [hc])]

theorem dropWhile_append_all {p : Char → Bool} {l₁ : List Char}
    (h : ∀ c ∈ l₁, p c = true) (l₂ : List Char) :
    (l₁ ++ l₂).dropWhile p = l₂.dropWhile p := by
  induction l₁ with
  | nil => simp
  | cons a t ih =>
    have ha := h a (by simp)
    simp only [List.cons_append, List.dropWhile_cons, ha, if_true]
    exact ih fun c hc => h c (by simp [hc])

theorem head?_append_some {α : Type _} {l l' : List α} {x : α}
    (h : l.head? = some x) : (l ++ l').head? = some x := by
  cases l with
  | nil => simp at h
  | cons a t => simpa using h

/-! ## Claim C1 — segment positions

The invariant maintained by the heading machine: the emitted positions are
exactly `0 .. len-1` in order, the next position counter equals the segment
count, and the head of the list is the synthetic abstract segment. -/

def MOk (abstract : String) (m : SegMachine) : Prop :=
  m.segments.map (·.position) = List.range m.segments.length ∧
  m.position = m.segments.length ∧
  m.segments.head? = some (abstractSeg abstract)

theorem closeCurrent_MOk {abstract : String} {m : SegMachine} (docId : Nat)
    (h : MOk abstract m) : MOk abstract (closeCurrent docId m) := by
  obtain ⟨hpos, hcnt, hhead⟩ := h
  cases htype : m.currentType with
  | none =>
    simp only [closeCurrent, htype]
    exact ⟨hpos, hcnt, hhead⟩
  | some t =>
    simp only [closeCurrent, htype]
    by_cases hc : (trimChars m.currentContent).isEmpty
    · rw [if_pos hc]
      exact ⟨hpos, hcnt, hhead⟩
    · rw [if_neg hc]
      refine ⟨?_, ?_, ?_⟩
      · dsimp only
        rw [List.map_append, hpos, hcnt]
        simp [List.range_succ]
      · dsimp only
        simp [hcnt]
      · dsimp only
        exact head?_append_some hhead

theorem stepLine_MOk {abstract : String} {m : SegMachine} (docId : Nat)
    (line : List Char) (h : MOk abstract m) :
    MOk abstract (stepLine docId m line) := by
  unfold stepLine
  cases detectSection line with
  | some s => exact closeCurrent_MOk docId h
  | none =>
    cases m.currentType with
    | some t => exact h
    | none =>
      by_cases hb : !(trimChars line).isEmpty && m.segments.isEmpty
      · simp only [hb, if_true]; exact h
      · simp only [hb, if_false]; exact h

theorem foldl_MOk {abstract : String} (docId : Nat) :
    ∀ (lines : List (List Char)) (m : SegMachine), MOk abstract m →
      MOk abstract (lines.foldl (stepLine docId) m) := by
  intro lines
  induction lines with
  | nil => intro m h; exact h
  | cons l t ih =>
    intro m h
    exact ih _ (stepLine_MOk docId l h)

theorem initMachine_MOk (abstract : String) :
    MOk abstract (initMachine abstract) := by
  refine ⟨?_, rfl, rfl⟩
  rfl

/-- The structural (pre-fallback) part of `segment_paper` satisfies the
position invariant and starts with the synthetic abstract segment. -/
theorem structuralSegments_MOk (abstract text_content : String) :
    (structuralSegments abstract text_content).map (·.position) =
      List.range (structuralSegments abstract text_content).length ∧
    (structuralSegments abstract text_content).head? =
      some (abstractSeg abstract) := by
  have h : MOk abstract (closeCurrent 0
      ((splitOnChar '\n' text_content.data).foldl (stepLine 0)
        (initMachine abstract))) :=
    closeCurrent_MOk 0
      (foldl_MOk 0 (splitOnChar '\n' text_content.data) (initMachine abstract)
        (initMachine_MOk abstract))
  exact ⟨h.1, h.2.2⟩

/-- The fallback positions, extracted: `len(segments) + i` over the kept
(index, paragraph) pairs. -/
theorem fallbackSegments_positions (base : Nat) (text_content : String) :
    (fallbackSegments base text_content).map (·.position) =
      ((splitParagraphs text_content.data).enum.filter
        (fun ip => 50 ≤ (trimChars ip.2).length)).map (fun ip => base + ip.1) := by
  unfold fallbackSegments
  rw [List.map_map]
  rfl

theorem fallbackSegments_pairwise (base : Nat) (text_content : String) :
    ((fallbackSegments base text_content).map (·.position)).Pairwise (· < ·) := by
  rw [fallbackSegments_positions]
  rw [List.pairwise_map]
  have henum : ((splitParagraphs text_content.data).enum.map Prod.fst).Pairwise
      (· < ·) := by
    rw [List.enum_map_fst]
    exact List.pairwise_lt_range _
  have henum' : ((splitParagraphs text_content.data).enum).Pairwise
      (fun a b => a.1 < b.1) := List.pairwise_map.mp henum
  have hf : (((splitParagraphs text_content.data).enum.filter
      (fun ip => 50 ≤ (trimChars ip.2).length))).Pairwise
      (fun a b => a.1 < b.1) :=
    henum'.sublist (List.filter_sublist _)
  exact hf.imp fun h => by omega

theorem fallbackSegments_lb (base : Nat) (text_content : String) :
    ∀ y ∈ (fallbackSegments base text_content).map (·.position), base ≤ y := by
  rw [fallbackSegments_positions]
  intro y hy
  obtain ⟨ip, _, rfl⟩ := List.mem_map.mp hy
  omega

/-- Claim C1 (amended): for every document, the synthetic abstract segment
derived from the abstract metadata is the first emitted segment and sits at
position 0; the positions of the structural segments are exactly `0..k-1`
with no gaps; the full output (fallback included) is the structural list
followed by the fallback segments, and its positions are strictly increasing
in emission order — but the fallback positions, which continue from the
structural count, may skip values (see `C1_counterexample`), so contiguity
holds only for the structural part. -/
theorem C1_amended (abstract text_content : String) :
    (structuralSegments abstract text_content).map (·.position) =
      List.range (structuralSegments abstract text_content).length ∧
    (segment_paper abstract text_content).head? = some (abstractSeg abstract) ∧
    ((segment_paper abstract text_content).map (·.position)).Pairwise (· < ·) ∧
    ∃ extra, segment_paper abstract text_content =
      structuralSegments abstract text_content ++ extra := by
  obtain ⟨hpos, hhead⟩ := structuralSegments_MOk abstract text_content
  unfold segment_paper
  by_cases hlen : (structuralSegments abstract text_content).length < 3
  · simp only [hlen, if_true]
    refine ⟨hpos, head?_append_some hhead, ?_, _, rfl⟩
    rw [List.map_append, List.pairwise_append]
    refine ⟨?_, fallbackSegments_pairwise _ _, ?_⟩
    · rw [hpos]; exact List.pairwise_lt_range _
    · intro x hx y hy
      rw [hpos] at hx
      have hxlt := List.mem_range.mp hx
      have hylb := fallbackSegments_lb _ _ y hy
      omega
  · simp only [hlen, if_false]
    refine ⟨hpos, hhead, ?_, [], by simp⟩
    rw [hpos]
    exact List.pairwise_lt_range _

/-- Claim C1 (counterexample): with abstract `"A"` and body
`"short\n\n" ++ 60 × 'a'`, the first fallback paragraph (`"short"`) is
discarded for being shorter than 50 characters but still advances the
enumeration index, so the emitted positions are `[0, 2]` — not the gap-free
`0..k-1 = [0, 1]` the claim requires. -/
theorem C1_counterexample :
    (segment_paper "A"
        ("short\n\n" ++ String.mk (List.replicate 60 'a'))).map (·.position)
      = [0, 2] ∧
    decide ((segment_paper "A"
        ("short\n\n" ++ String.mk (List.replicate 60 'a'))).map (·.position)
      = List.range (segment_paper "A"
          ("short\n\n" ++ String.mk (List.replicate 60 'a'))).length)
      = false := by
  constructor
  · decide
  · decide

/-! ## Claim C2 — batch statuses -/

/-- Whether an `Except` value is a raised error. -/
def exceptIsError {ε α : Type _} : Except ε α → Bool
  | .error _ => true
  | .ok _ => false

/-- Claim C2 (amended): per-paper failures become statuses on the paper's
result record and the batch maps over all papers (never aborting), but the
status split is: `"failed"` exactly when the PDF download failed, and
`"partial"` when the download succeeded and text extraction **or**
segmentation failed — i.e. a text-extraction failure (text never obtained)
is recorded as `"partial"`, not `"failed"` as the claim states. -/
theorem C2_amended (p : PaperStages) (papers : List PaperStages) :
    ((processPaper p).status = "failed" ↔ exceptIsError p.download = true) ∧
    ((processPaper p).status = "partial" ↔
      (exceptIsError p.download = false ∧
        (exceptIsError p.extractText = true ∨
          (exceptIsError p.extractText = false ∧
            exceptIsError p.segmentation = true)))) ∧
    ((processPaper p).status = "success" ↔
      (exceptIsError p.download = false ∧ exceptIsError p.extractText = false ∧
        exceptIsError p.segmentation = false)) ∧
    (collect_papers papers).length = papers.length := by
  obtain ⟨pid, ptitle, dl, ext, seg⟩ := p
  cases dl <;> cases ext <;> cases seg <;>
    simp [processPaper, exceptIsError, collect_papers]

/-- Claim C2 (counterexample): a paper whose PDF download succeeded but
whose text extraction raised — a failure *before text was obtained* — is
recorded with status `"partial"`, while the claim requires `"failed"`
exactly in that situation. -/
theorem C2_counterexample :
    (processPaper
        { id := "2301.12345", title := "Quantum Paper",
          download := Except.ok "/data/raw/arxiv/2301.12345.pdf",
          extractText := Except.error "pdfminer failed",
          segmentation := Except.ok [] }).status = "partial" ∧
    decide ((processPaper
        { id := "2301.12345", title := "Quantum Paper",
          download := Except.ok "/data/raw/arxiv/2301.12345.pdf",
          extractText := Except.error "pdfminer failed",
          segmentation := Except.ok [] }).status = "failed") = false ∧
    (processPaper
        { id := "2301.12345", title := "Quantum Paper",
          download := Except.ok "/data/raw/arxiv/2301.12345.pdf",
          extractText := Except.error "pdfminer failed",
          segmentation := Except.ok [] }).text_extracted = some false := by
  refine ⟨by decide, by decide, by decide⟩

/-! ## Claim C3 — front matter before the first heading -/

/-- Claim C3 (the code, evaluated at the failing input): the front-matter
line `"John Doe and Jane Roe"` is non-blank and matches no heading pattern,
so per the claim it should accumulate into an implicit `introduction`
segment — but the guard of that branch is `not any(segments)`, and
`segments` already holds the synthetic abstract segment when the line loop
starts, so the branch never fires and the front matter appears in **no**
emitted segment: the output contents are exactly the metadata abstract and
the heading-seeded introduction section. -/
theorem C3_front_matter_dropped :
    detectSection "John Doe and Jane Roe".data = none ∧
    (trimChars "John Doe and Jane Roe".data).isEmpty = false ∧
    (segment_paper "A"
        "John Doe and Jane Roe\n\nIntroduction:\nWe study things.").map
      (·.content) = ["A", "Introduction:\nWe study things."] := by
  refine ⟨by decide, by decide, by decide⟩

/-! ## Claim C4 — heading types -/

/-- Claim C4 (amended): a matching line always opens a section of the
matched entry, and a closed section is emitted with
`getattr(SegmentType, name.upper(), PARAGRAPH)` — which preserves the
entry's name for the seven entries that have a same-named `SegmentType`
member, but maps `background` and `experiment` to `paragraph` because the
closed `SegmentType` set has no such members.  A nine-heading document
accordingly yields `paragraph`-typed segments for its Background and
Experiment sections. -/
theorem C4_amended :
    (∀ (docId : Nat) (m : SegMachine) (line : List Char) (s : SectionName),
      detectSection line = some s →
        (stepLine docId m line).currentType = some s) ∧
    (∀ (docId : Nat) (m : SegMachine) (t : SectionName) (seg : Segment),
      m.currentType = some t → seg ∈ (closeCurrent docId m).segments →
        seg ∈ m.segments ∨ seg.segment_type = sectionSegType t) ∧
    (segTypeName (sectionSegType .abstract) = sectionNameStr .abstract ∧
     segTypeName (sectionSegType .introduction) = sectionNameStr .introduction ∧
     segTypeName (sectionSegType .method) = sectionNameStr .method ∧
     segTypeName (sectionSegType .result) = sectionNameStr .result ∧
     segTypeName (sectionSegType .discussion) = sectionNameStr .discussion ∧
     segTypeName (sectionSegType .conclusion) = sectionNameStr .conclusion ∧
     segTypeName (sectionSegType .reference) = sectionNameStr .reference ∧
     sectionSegType .background = .paragraph ∧
     sectionSegType .experiment = .paragraph) ∧
    (segment_paper "A"
        ("Abstract: \nA text.\nIntroduction: \nB text.\nBackground: \nC text.\n" ++
         "Method: \nD text.\nExperiment: \nE text.\nResult: \nF text.\n" ++
         "Discussion: \nG text.\nConclusion: \nH text.\nReference: \nI text.")).map
      (·.segment_type) =
      [.abstract, .abstract, .introduction, .paragraph, .method, .paragraph,
       .result, .discussion, .conclusion, .reference] := by
  refine ⟨?_, ?_, by decide, by decide⟩
  · intro docId m line s h
    unfold stepLine
    rw [h]
  · intro docId m t seg ht hseg
    simp only [closeCurrent, ht] at hseg
    by_cases hc : (trimChars m.currentContent).isEmpty
    · rw [if_pos hc] at hseg
      exact Or.inl hseg
    · rw [if_neg hc] at hseg
      rcases List.mem_append.mp hseg with hmem | hmem
      · exact Or.inl hmem
      · right
        have hs : seg =
            { segment_id := m.position, document_id := docId,
              content := String.mk (trimChars m.currentContent),
              segment_type := sectionSegType t, position := m.position } := by
          simpa using hmem
        rw [hs]

/-- Witness for C4: the line `"Background: x"` opens a `background` section
on a concrete machine, and the segment that closing the machine appends is
typed `sectionSegType background` ( = `paragraph`). -/
theorem C4_witness :
    (stepLine 0 (initMachine "A") "Background: x".data).currentType =
      some SectionName.background ∧
    ((⟨1, 0, "Background: x", SegmentType.paragraph, 1⟩ : Segment) ∈
        (stepLine 0 (initMachine "A") "Background: x".data).segments ∨
      (⟨1, 0, "Background: x", SegmentType.paragraph, 1⟩ :
          Segment).segment_type = sectionSegType SectionName.background) :=
  ⟨C4_amended.1 0 (initMachine "A") "Background: x".data
      SectionName.background (by decide),
   C4_amended.2.1 0 (stepLine 0 (initMachine "A") "Background: x".data)
      SectionName.background
      ⟨1, 0, "Background: x", SegmentType.paragraph, 1⟩
      (by decide) (by decide)⟩

/-- Claim C4 (counterexample): the line `"Background: x"` matches the
`background` entry of the table, and the section it opens is emitted — its
content starts with the heading line — but its emitted segment type is
`paragraph` (the `getattr` default), not a background type: the closed
`SegmentType` set has no `background` member and no emitted type-name equals
`"background"`. -/
theorem C4_counterexample :
    detectSection "Background: x".data = some SectionName.background ∧
    (segment_paper "A"
        "Background: x\nPrior art detail.\nConclusion: y\nDone.").map
      (fun s => segTypeName s.segment_type) =
      ["abstract", "paragraph", "conclusion"] ∧
    (segment_paper "A"
        "Background: x\nPrior art detail.\nConclusion: y\nDone.").map
      (·.content) =
      ["A", "Background: x\nPrior art detail.", "Conclusion: y\nDone."] := by
  refine ⟨by decide, by decide, by decide⟩

/-! ## Claim C5 — entity derivation -/

/-- Claim C5 (confirmed): an entity-derivation run on a paper with `N`
authors and `M` categories produces `1 + N + M` entities — exactly one
`paper`-typed, `N` `person`-typed and `M` `concept`-typed —, every produced
entity has confidence exactly `1.0`, and every `paper`-typed output (there
is one) carries exactly the abstract-typed segment ids as its
`source_segments`. -/
theorem C5_entity_derivation (paper : PaperMeta) (segments : List Segment) :
    (extract_entities paper segments).length =
      1 + paper.authors.length + paper.categories.length ∧
    ((extract_entities paper segments).filter
        fun e => decide (e.entity_type = EntityType.paper)).length = 1 ∧
    ((extract_entities paper segments).filter
        fun e => decide (e.entity_type = EntityType.person)).length =
      paper.authors.length ∧
    ((extract_entities paper segments).filter
        fun e => decide (e.entity_type = EntityType.concept)).length =
      paper.categories.length ∧
    (∀ e ∈ extract_entities paper segments, e.confidence = 1) ∧
    ∀ e ∈ extract_entities paper segments,
      e.entity_type = EntityType.paper →
        e.source_segments = abstractSegIds segments := by
  have hPersonNotPaper : ∀ ia : Nat × String,
      (fun e : Entity => decide (e.entity_type = EntityType.paper))
        (personEntity paper.title (abstractSegIds segments) ia) = false :=
    fun _ => rfl
  have hConceptNotPaper : ∀ ic : Nat × String,
      (fun e : Entity => decide (e.entity_type = EntityType.paper))
        (conceptEntity paper.title paper.authors.length
          (abstractSegIds segments) ic) = false :=
    fun _ => rfl
  have hPersonIsPerson : ∀ ia : Nat × String,
      (fun e : Entity => decide (e.entity_type = EntityType.person))
        (personEntity paper.title (abstractSegIds segments) ia) = true :=
    fun _ => rfl
  have hConceptNotPerson : ∀ ic : Nat × String,
      (fun e : Entity => decide (e.entity_type = EntityType.person))
        (conceptEntity paper.title paper.authors.length
          (abstractSegIds segments) ic) = false :=
    fun _ => rfl
  have hPersonNotConcept : ∀ ia : Nat × String,
      (fun e : Entity => decide (e.entity_type = EntityType.concept))
        (personEntity paper.title (abstractSegIds segments) ia) = false :=
    fun _ => rfl
  have hConceptIsConcept : ∀ ic : Nat × String,
      (fun e : Entity => decide (e.entity_type = EntityType.concept))
        (conceptEntity paper.title paper.authors.length
          (abstractSegIds segments) ic) = true :=
    fun _ => rfl
  refine ⟨?_, ?_, ?_, ?_, ?_, ?_⟩
  · simp [extract_entities, List.enum_length]
    omega
  · simp only [extract_entities, List.filter_cons, List.filter_append]
    rw [filter_map_none hPersonNotPaper, filter_map_none hConceptNotPaper]
    rfl
  · simp only [extract_entities, List.filter_cons, List.filter_append]
    rw [filter_map_all hPersonIsPerson, filter_map_none hConceptNotPerson]
    simp [paperEntity, List.enum_length]
  · simp only [extract_entities, List.filter_cons, List.filter_append]
    rw [filter_map_none hPersonNotConcept, filter_map_all hConceptIsConcept]
    simp [paperEntity, List.enum_length]
  · intro e he
    simp only [extract_entities, List.mem_cons, List.mem_append,
      List.mem_map] at he
    rcases he with rfl | ⟨ia, _, rfl⟩ | ⟨ic, _, rfl⟩
    · rfl
    · rfl
    · rfl
  · intro e he htype
    simp only [extract_entities, List.mem_cons, List.mem_append,
      List.mem_map] at he
    rcases he with rfl | ⟨ia, _, rfl⟩ | ⟨ic, _, rfl⟩
    · rfl
    · simp [personEntity] at htype
    · simp [conceptEntity] at htype

/-- Witness for C5: a concrete run with 2 authors and 2 categories — `5`
entities, counts `1/2/2`, unit confidences, and the paper entity carries
the abstract segment's id. -/
theorem C5_witness :
    (extract_entities
        { id := "2301.12345", title := "T", authors := ["A1", "A2"],
          summary := "S", published := "2023-01-15",
          categories := ["cs.AI", "quant-ph"] }
        [{ segment_id := 7, document_id := 0, content := "S",
           segment_type := SegmentType.abstract, position := 0 }]).length =
      1 + 2 + 2 ∧
    (paperEntity
        { id := "2301.12345", title := "T", authors := ["A1", "A2"],
          summary := "S", published := "2023-01-15",
          categories := ["cs.AI", "quant-ph"] } [7]).confidence = 1 ∧
    (paperEntity
        { id := "2301.12345", title := "T", authors := ["A1", "A2"],
          summary := "S", published := "2023-01-15",
          categories := ["cs.AI", "quant-ph"] } [7]).source_segments =
      abstractSegIds
        [{ segment_id := 7, document_id := 0, content := "S",
           segment_type := SegmentType.abstract, position := 0 }] := by
  have h := C5_entity_derivation
    { id := "2301.12345", title := "T", authors := ["A1", "A2"],
      summary := "S", published := "2023-01-15",
      categories := ["cs.AI", "quant-ph"] }
    [{ segment_id := 7, document_id := 0, content := "S",
       segment_type := SegmentType.abstract, position := 0 }]
  refine ⟨h.1, ?_, ?_⟩
  · exact h.2.2.2.2.1 _ (by decide)
  · exact h.2.2.2.2.2 _ (by decide) (by decide)

/-! ## Claim C6 — relation derivation -/

/-- The relation record produced by a successful `authored_by`
construction. -/
def authoredRelation (pe a : Entity) : Relation :=
  { relation_id := a.entity_id, source_entity_id := pe.entity_id,
    target_entity_id := a.entity_id, relation_type := .authored_by,
    description := some ("'" ++ pe.name ++ "' is authored by " ++ a.name),
    source_segments := pe.source_segments, confidence := 1 }

/-- The relation record produced by a successful `part_of` construction. -/
def partOfRelation (pe c : Entity) : Relation :=
  { relation_id := c.entity_id, source_entity_id := pe.entity_id,
    target_entity_id := c.entity_id, relation_type := .part_of,
    description := some ("'" ++ pe.name ++ "' is part of category " ++ c.name),
    source_segments := pe.source_segments, confidence := 1 }

theorem mkRelation_ok (rid src tgt : Nat) (rt : RelationType)
    (desc : Option String) (segs : List Nat) (h : src ≠ tgt) :
    mkRelation rid src tgt rt desc segs 1 =
      .ok { relation_id := rid, source_entity_id := src,
            target_entity_id := tgt, relation_type := rt, description := desc,
            source_segments := segs, confidence := 1 } := by
  unfold mkRelation
  rw [if_neg (by norm_num), if_neg h]

theorem mkAuthoredBy_ok {pe a : Entity} (h : a.entity_id ≠ pe.entity_id) :
    mkAuthoredBy pe a = .ok (authoredRelation pe a) :=
  mkRelation_ok _ _ _ _ _ _ (Ne.symm h)

theorem mkPartOf_ok {pe c : Entity} (h : c.entity_id ≠ pe.entity_id) :
    mkPartOf pe c = .ok (partOfRelation pe c) :=
  mkRelation_ok _ _ _ _ _ _ (Ne.symm h)

/-- Claim C6 (confirmed): on an entity list with exactly one `paper`-typed
entity whose id differs from every `person`/`concept` id (true of the
freshly generated ids of `extract_entities`), relation derivation succeeds
and produces exactly one `authored_by` relation per `person` entity and one
`part_of` relation per `concept` entity, each with source the paper entity's
id and target different from the source; constructing any `Relation` with
source id equal to target id fails; and an entity list without a
`paper`-typed entity yields the empty relation list, not an error. -/
theorem C6_relation_derivation (aid : String) (entities : List Entity)
    (pe : Entity)
    (hOne : entities.filter
      (fun e => decide (e.entity_type = EntityType.paper)) = [pe])
    (hIds : ∀ e ∈ entities,
      e.entity_type = EntityType.person ∨ e.entity_type = EntityType.concept →
        e.entity_id ≠ pe.entity_id) :
    (∃ rels, extract_relations aid entities = .ok rels ∧
      (rels.filter fun r =>
          decide (r.relation_type = RelationType.authored_by)).length =
        (entities.filter fun e =>
          decide (e.entity_type = EntityType.person)).length ∧
      (rels.filter fun r =>
          decide (r.relation_type = RelationType.part_of)).length =
        (entities.filter fun e =>
          decide (e.entity_type = EntityType.concept)).length ∧
      ∀ r ∈ rels, r.source_entity_id = pe.entity_id ∧
        r.target_entity_id ≠ r.source_entity_id) ∧
    (∀ (rid src : Nat) (rt : RelationType) (desc : Option String)
        (segs : List Nat) (conf : ℚ),
      exceptIsError (mkRelation rid src src rt desc segs conf) = true) ∧
    (∀ es : List Entity, (∀ e ∈ es, e.entity_type ≠ EntityType.paper) →
      extract_relations aid es = .ok []) := by
  refine ⟨?_, ?_, ?_⟩
  · have hfind : entities.find?
        (fun e => decide (e.entity_type = EntityType.paper)) = some pe := by
      rw [find?_eq_head_filter, hOne]
      rfl
    have hA : exceptMapList (mkAuthoredBy pe)
        (entities.filter fun e =>
          decide (e.entity_type = EntityType.person)) =
        .ok ((entities.filter fun e =>
          decide (e.entity_type = EntityType.person)).map
            (authoredRelation pe)) := by
      apply exceptMapList_ok
      intro x hx
      have hm := List.mem_filter.mp hx
      exact mkAuthoredBy_ok (hIds x hm.1 (Or.inl (by simpa using hm.2)))
    have hC : exceptMapList (mkPartOf pe)
        (entities.filter fun e =>
          decide (e.entity_type = EntityType.concept)) =
        .ok ((entities.filter fun e =>
          decide (e.entity_type = EntityType.concept)).map
            (partOfRelation pe)) := by
      apply exceptMapList_ok
      intro x hx
      have hm := List.mem_filter.mp hx
      exact mkPartOf_ok (hIds x hm.1 (Or.inr (by simpa using hm.2)))
    refine ⟨(entities.filter fun e =>
        decide (e.entity_type = EntityType.person)).map (authoredRelation pe) ++
      (entities.filter fun e =>
        decide (e.entity_type = EntityType.concept)).map (partOfRelation pe),
      ?_, ?_, ?_, ?_⟩
    · simp only [extract_relations, hfind, hA, hC]
    · rw [List.filter_append, filter_map_all (fun _ => rfl),
        filter_map_none (fun _ => rfl)]
      simp
    · rw [List.filter_append, filter_map_none (fun _ => rfl),
        filter_map_all (fun _ => rfl)]
      simp
    · intro r hr
      rcases List.mem_append.mp hr with hm | hm
      · obtain ⟨a, ha, rfl⟩ := List.mem_map.mp hm
        have hmf := List.mem_filter.mp ha
        have hne : a.entity_id ≠ pe.entity_id :=
          hIds a hmf.1 (Or.inl (by simpa using hmf.2))
        exact ⟨rfl, fun hh => hne hh⟩
      · obtain ⟨c, hc, rfl⟩ := List.mem_map.mp hm
        have hmf := List.mem_filter.mp hc
        have hne : c.entity_id ≠ pe.entity_id :=
          hIds c hmf.1 (Or.inr (by simpa using hmf.2))
        exact ⟨rfl, fun hh => hne hh⟩
  · intro rid src rt desc segs conf
    unfold mkRelation
    by_cases h : ¬(0 ≤ conf ∧ conf ≤ 1)
    · rw [if_pos h]
      rfl
    · rw [if_neg h, if_pos rfl]
      rfl
  · intro es hes
    have hnone : es.find?
        (fun e => decide (e.entity_type = EntityType.paper)) = none := by
      rw [List.find?_eq_none]
      intro x hx
      simpa using hes x hx
    simp [extract_relations, hnone]

/-- Witness for C6: a concrete run on one paper entity (id 0), one person
entity (id 1) and one concept entity (id 2) — one `authored_by` and one
`part_of` relation result, all sourced at id 0. -/
theorem C6_witness :
    (∃ rels, extract_relations "2301.12345"
        ([{ entity_id := 0, name := "T", entity_type := EntityType.paper,
            aliases := [], description := some "S", source_segments := [9],
            confidence := 1 },
          { entity_id := 1, name := "Alice", entity_type := EntityType.person,
            aliases := [], description := none, source_segments := [9],
            confidence := 1 },
          { entity_id := 2, name := "cs.AI", entity_type := EntityType.concept,
            aliases := [], description := none, source_segments := [9],
            confidence := 1 }] : List Entity) = .ok rels ∧
      (rels.filter fun r =>
          decide (r.relation_type = RelationType.authored_by)).length = 1 ∧
      (rels.filter fun r =>
          decide (r.relation_type = RelationType.part_of)).length = 1 ∧
      ∀ r ∈ rels, r.source_entity_id = 0 ∧
        r.target_entity_id ≠ r.source_entity_id) ∧
    exceptIsError (mkRelation 5 3 3 RelationType.authored_by none [] 1) =
      true ∧
    extract_relations "2301.12345"
      ([{ entity_id := 1, name := "Alice", entity_type := EntityType.person,
          aliases := [], description := none, source_segments := [9],
          confidence := 1 }] : List Entity) = .ok [] := by
  have h := C6_relation_derivation "2301.12345"
    ([{ entity_id := 0, name := "T", entity_type := EntityType.paper,
        aliases := [], description := some "S", source_segments := [9],
        confidence := 1 },
      { entity_id := 1, name := "Alice", entity_type := EntityType.person,
        aliases := [], description := none, source_segments := [9],
        confidence := 1 },
      { entity_id := 2, name := "cs.AI", entity_type := EntityType.concept,
        aliases := [], description := none, source_segments := [9],
        confidence := 1 }] : List Entity)
    { entity_id := 0, name := "T", entity_type := EntityType.paper,
      aliases := [], description := some "S", source_segments := [9],
      confidence := 1 }
    (by decide) (by decide)
  obtain ⟨⟨rels, h1, h2, h3, h4⟩, h5, h6⟩ := h
  refine ⟨⟨rels, h1, ?_, ?_, h4⟩, h5 5 3 RelationType.authored_by none [] 1,
    h6 _ (by decide)⟩
  · simpa using h2
  · simpa using h3

/-! ## Claim C7 — the retry loop -/

theorem retryAlwaysFailGo_attempts (b : ℚ) :
    ∀ (k : Nat) (cur : ℚ), (retryAlwaysFailGo b k cur).attempts = k + 1 := by
  intro k
  induction k with
  | zero => intro cur; rfl
  | succ n ih =>
    intro cur
    simp only [retryAlwaysFailGo, ih (cur * b)]

theorem retryAlwaysFailGo_delays (b : ℚ) :
    ∀ (k : Nat) (cur : ℚ), (retryAlwaysFailGo b k cur).delays =
      (List.range k).map (fun i => cur * b ^ i) := by
  intro k
  induction k with
  | zero => intro cur; rfl
  | succ n ih =>
    intro cur
    simp only [retryAlwaysFailGo, ih (cur * b), List.range_succ_eq_map,
      List.map_cons, List.map_map, pow_zero, mul_one]
    congr 1
    apply List.map_congr_left
    intro i _
    simp only [Function.comp_apply, pow_succ]
    ring

theorem retryAlwaysFailGo_chain {b : ℚ} (hb : 1 ≤ b) :
    ∀ (k : Nat) (cur : ℚ), 0 ≤ cur →
      ((retryAlwaysFailGo b k cur).delays).Chain' (· ≤ ·) := by
  intro k
  induction k with
  | zero => intro cur _; simp [retryAlwaysFailGo]
  | succ n ih =>
    intro cur hcur
    cases n with
    | zero => simp [retryAlwaysFailGo]
    | succ m =>
      have hstep : cur ≤ cur * b := le_mul_of_one_le_right hcur hb
      have hnext : (0 : ℚ) ≤ cur * b :=
        mul_nonneg hcur (le_trans zero_le_one hb)
      have htail := ih (cur * b) hnext
      simp only [retryAlwaysFailGo] at htail ⊢
      exact List.chain'_cons.mpr ⟨hstep, htail⟩

/-- Claim C7 (amended): with a wrapped request that always raises a
retryable error, the retry wrapper attempts the request exactly
`max_retries + 1` times before re-raising, and the inter-attempt delays are
exactly `delay, delay·backoff, …, delay·backoff^(max_retries-1)` — each
delay the previous one multiplied by the backoff multiplier.  The sequence
is non-decreasing whenever `delay ≥ 0` and `backoff ≥ 1` (as with the
defaults `delay=2, backoff=2`), but not for every configuration: a
multiplier below 1 yields decreasing delays (see `C7_counterexample`). -/
theorem C7_amended (max_retries : Nat) (delay backoff : ℚ) :
    (retryAlwaysFail max_retries delay backoff).attempts = max_retries + 1 ∧
    (retryAlwaysFail max_retries delay backoff).delays =
      (List.range max_retries).map (fun i => delay * backoff ^ i) ∧
    (0 ≤ delay → 1 ≤ backoff →
      ((retryAlwaysFail max_retries delay backoff).delays).Chain' (· ≤ ·)) :=
  ⟨retryAlwaysFailGo_attempts backoff max_retries delay,
   retryAlwaysFailGo_delays backoff max_retries delay,
   fun hd hb => retryAlwaysFailGo_chain hb max_retries delay hd⟩

/-- Witness for C7: the decorator's defaults (`max_retries=3, delay=2,
backoff=2`) give 4 attempts and the non-decreasing delays `[2, 4, 8]`. -/
theorem C7_witness :
    (retryAlwaysFail 3 2 2).attempts = 3 + 1 ∧
    (retryAlwaysFail 3 2 2).delays =
      (List.range 3).map (fun i => 2 * 2 ^ i) ∧
    ((retryAlwaysFail 3 2 2).delays).Chain' (· ≤ ·) := by
  have h := C7_amended 3 2 2
  exact ⟨h.1, h.2.1, h.2.2 (by norm_num) (by norm_num)⟩

/-- Claim C7 (counterexample): the claim asserts non-decreasing delays for
*every* configuration, but with `delay = 2` and `backoff = 1/2` the delay
sequence is `[2, 1]`, which is decreasing. -/
theorem C7_counterexample :
    (retryAlwaysFail 2 2 (1/2)).attempts = 2 + 1 ∧
    (retryAlwaysFail 2 2 (1/2)).delays = [2, 1] ∧
    decide (((retryAlwaysFail 2 2 (1/2)).delays).Chain' (· ≤ ·)) = false := by
  have hd : (retryAlwaysFail 2 2 (1/2)).delays = [2, 1] := by
    norm_num [retryAlwaysFail, retryAlwaysFailGo]
  refine ⟨rfl, hd, ?_⟩
  rw [hd]
  norm_num [List.chain'_cons]

/-! ## Claim C8 — date validation -/

/-- Claim C8 (amended): a `date_from` (or `date_to`) that does not parse as
a `YYYY-MM-DD` calendar date makes `search_papers` fail before any network
request is issued (the result is an error, never a request) — but the
raised error is `ArxivAPIError(500, …)`, the **retryable** (5xx/transient)
kind, because the `ValueError` of the date check is swallowed by the
blanket `except Exception` handler; it is not a non-retryable kind as the
claim states. -/
theorem C8_amended (query : String) (category : Option String)
    (dt : Option String) (d today : String) (max_results : Nat) :
    (validDate d = false →
      search_papers query category (some d) dt today max_results =
        .error (.apiError 500
          ("Error searching arXiv API: Invalid date_from format: " ++ d ++
            ", expected YYYY-MM-DD")) ∧
      search_papers query category none (some d) today max_results =
        .error (.apiError 500
          ("Error searching arXiv API: Invalid date_to format: " ++ d ++
            ", expected YYYY-MM-DD"))) ∧
    ∀ e, isRetryableError (ArxivErr.apiError 500 e) = true := by
  constructor
  · intro h
    constructor
    · simp [search_papers, h]
    · simp [search_papers, finishDateQuery, h]
  · intro e
    rfl

/-- Witness for C8: the spec's Scenario D input `date_from = "2023-13-01"`
(month 13). -/
theorem C8_witness :
    search_papers "quantum computing" none (some "2023-13-01") none
        "2025-01-01" 100 =
      .error (.apiError 500
        ("Error searching arXiv API: Invalid date_from format: " ++
          "2023-13-01" ++ ", expected YYYY-MM-DD")) ∧
    isRetryableError (ArxivErr.apiError 500 "x") = true := by
  have h := C8_amended "quantum computing" none none "2023-13-01"
    "2025-01-01" 100
  exact ⟨(h.1 (by decide)).1, h.2 "x"⟩

/-- Claim C8 (counterexample): on `date_from = "2023-13-01"` the call does
fail without producing a request, but the error it fails with is
`ArxivAPIError(500, …)` — classified retryable by the codebase's own retry
decorator (`exceptions=(ArxivAPIError,)`) and transient (5xx) by the
design's taxonomy — contradicting the claim that the error kind is
non-retryable. -/
theorem C8_counterexample :
    search_papers "quantum computing" none (some "2023-13-01") none
        "2025-01-01" 100 =
      .error (.apiError 500
        "Error searching arXiv API: Invalid date_from format: 2023-13-01, expected YYYY-MM-DD") ∧
    exceptIsError (search_papers "quantum computing" none
      (some "2023-13-01") none "2025-01-01" 100) = true ∧
    isRetryableError (ArxivErr.apiError 500
      "Error searching arXiv API: Invalid date_from format: 2023-13-01, expected YYYY-MM-DD") = true := by
  refine ⟨by decide, by decide, rfl⟩

/-! ## Claim C9 — version-suffix normalisation -/

theorem str_data_append (a b : String) : (a ++ b).data = a.data ++ b.data := by
  cases a
  cases b
  rfl

/-- Claim C9 (confirmed): for every id of the shape `base ++ "v" ++ digits`
(a version suffix `v` followed by one or more digits), `get_paper_by_id`
strips the suffix before querying, so the queried identifier is exactly
`base`; in particular, whenever `base` itself carries no version suffix,
fetching `base ++ "v" ++ digits` queries the same identifier as fetching
`base`. -/
theorem C9_version_strip (base digits : String) (hne : digits ≠ "")
    (hdig : ∀ c ∈ digits.data, c.isDigit = true) :
    cleanArxivId (base ++ "v" ++ digits) = base ∧
    (cleanArxivId base = base →
      queriedArxivId (base ++ "v" ++ digits) = queriedArxivId base) := by
  have hd : (base ++ "v" ++ digits).data =
      base.data ++ ('v' :: digits.data) := by
    rw [str_data_append, str_data_append]
    simp
  have hrev : (base ++ "v" ++ digits).data.reverse =
      digits.data.reverse ++ ('v' :: base.data.reverse) := by
    rw [hd, List.reverse_append]
    simp
  have hdigr : ∀ c ∈ digits.data.reverse, c.isDigit = true := fun c hc =>
    hdig c (List.mem_reverse.mp hc)
  have htake : (base ++ "v" ++ digits).data.reverse.takeWhile Char.isDigit =
      digits.data.reverse := by
    rw [hrev, takeWhile_append_all hdigr]
    simp [List.takeWhile_cons]
  have hdrop : (base ++ "v" ++ digits).data.reverse.dropWhile Char.isDigit =
      'v' :: base.data.reverse := by
    rw [hrev, dropWhile_append_all hdigr]
    simp [List.dropWhile_cons]
  have hnil : digits.data ≠ [] := by
    intro hh
    apply hne
    cases digits with
    | mk d =>
      cases hh
      rfl
  obtain ⟨c, cs, hcs⟩ : ∃ c cs, digits.data.reverse = c :: cs := by
    cases hrev2 : digits.data.reverse with
    | nil => exact absurd (by simpa using hrev2) hnil
    | cons c cs => exact ⟨c, cs, rfl⟩
  have hmain : cleanArxivId (base ++ "v" ++ digits) = base := by
    simp only [cleanArxivId, htake, hdrop, hcs]
    rw [List.reverse_reverse]
  refine ⟨hmain, fun hbase => ?_⟩
  unfold queriedArxivId
  rw [hmain, hbase]

/-- Witness for C9: fetching `"2103.13630v2"` queries `"2103.13630"`, the
same identifier a fetch of `"2103.13630"` queries. -/
theorem C9_witness :
    cleanArxivId ("2103.13630" ++ "v" ++ "2") = "2103.13630" ∧
    queriedArxivId ("2103.13630" ++ "v" ++ "2") =
      queriedArxivId "2103.13630" := by
  have h := C9_version_strip "2103.13630" "2" (by decide) (by decide)
  exact ⟨h.1, h.2 (by decide)⟩

/-! ## Claim C10 — more than one paper entity -/

/-- Claim C10 (confirmed): on an entity list with several `paper`-typed
entities (pairwise-distinct ids, as `uuid4()` guarantees), relation
derivation does not fail and does not reject the input: the **first**
`paper`-typed entity in list order is the source of every emitted relation;
the remaining paper entities appear in no relation, neither as source nor as
target; and every `concept`-typed entity receives a `part_of` relation
regardless of its origin. -/
theorem C10_multi_paper (aid : String) (entities : List Entity) (pe : Entity)
    (rest : List Entity)
    (hfil : entities.filter
      (fun e => decide (e.entity_type = EntityType.paper)) = pe :: rest)
    (hnodup : (entities.map (·.entity_id)).Nodup) :
    ∃ rels, extract_relations aid entities = .ok rels ∧
      (∀ r ∈ rels, r.source_entity_id = pe.entity_id) ∧
      (∀ c ∈ entities, c.entity_type = EntityType.concept →
        ∃ r ∈ rels, r.relation_type = RelationType.part_of ∧
          r.target_entity_id = c.entity_id) ∧
      (∀ q ∈ entities, q.entity_type = EntityType.paper → q ≠ pe →
        ∀ r ∈ rels, r.source_entity_id ≠ q.entity_id ∧
          r.target_entity_id ≠ q.entity_id) := by
  have hpe_filter : pe ∈ entities.filter
      (fun e => decide (e.entity_type = EntityType.paper)) := by
    rw [hfil]
    exact List.mem_cons_self pe rest
  have hpe_mem : pe ∈ entities := List.mem_of_mem_filter hpe_filter
  have hpe_type : pe.entity_type = EntityType.paper := by
    simpa using List.of_mem_filter hpe_filter
  have hinj : ∀ x ∈ entities, ∀ y ∈ entities,
      x.entity_id = y.entity_id → x = y := fun x hx y hy hxy =>
    List.inj_on_of_nodup_map hnodup hx hy hxy
  have hPersonNe : ∀ x ∈ entities, x.entity_type = EntityType.person →
      x.entity_id ≠ pe.entity_id := by
    intro x hx hxt hxy
    have hxe := hinj x hx pe hpe_mem hxy
    rw [hxe] at hxt
    rw [hxt] at hpe_type
    exact absurd hpe_type (by decide)
  have hConceptNe : ∀ x ∈ entities, x.entity_type = EntityType.concept →
      x.entity_id ≠ pe.entity_id := by
    intro x hx hxt hxy
    have hxe := hinj x hx pe hpe_mem hxy
    rw [hxe] at hxt
    rw [hxt] at hpe_type
    exact absurd hpe_type (by decide)
  have hfind : entities.find?
      (fun e => decide (e.entity_type = EntityType.paper)) = some pe := by
    rw [find?_eq_head_filter, hfil]
    rfl
  have hA : exceptMapList (mkAuthoredBy pe)
      (entities.filter fun e =>
        decide (e.entity_type = EntityType.person)) =
      .ok ((entities.filter fun e =>
        decide (e.entity_type = EntityType.person)).map
          (authoredRelation pe)) := by
    apply exceptMapList_ok
    intro x hx
    have hm := List.mem_filter.mp hx
    exact mkAuthoredBy_ok (hPersonNe x hm.1 (by simpa using hm.2))
  have hC : exceptMapList (mkPartOf pe)
      (entities.filter fun e =>
        decide (e.entity_type = EntityType.concept)) =
      .ok ((entities.filter fun e =>
        decide (e.entity_type = EntityType.concept)).map
          (partOfRelation pe)) := by
    apply exceptMapList_ok
    intro x hx
    have hm := List.mem_filter.mp hx
    exact mkPartOf_ok (hConceptNe x hm.1 (by simpa using hm.2))
  refine ⟨(entities.filter fun e =>
      decide (e.entity_type = EntityType.person)).map (authoredRelation pe) ++
    (entities.filter fun e =>
      decide (e.entity_type = EntityType.concept)).map (partOfRelation pe),
    ?_, ?_, ?_, ?_⟩
  · simp only [extract_relations, hfind, hA, hC]
  · intro r hr
    rcases List.mem_append.mp hr with hm | hm
    · obtain ⟨a, _, rfl⟩ := List.mem_map.mp hm
      rfl
    · obtain ⟨c, _, rfl⟩ := List.mem_map.mp hm
      rfl
  · intro c hc hct
    refine ⟨partOfRelation pe c, ?_, rfl, rfl⟩
    apply List.mem_append_right
    exact List.mem_map.mpr ⟨c, List.mem_filter.mpr ⟨hc, by simpa using hct⟩,
      rfl⟩
  · intro q hq hqt hqne r hr
    have hsrc : ∀ s ∈ ((entities.filter fun e =>
        decide (e.entity_type = EntityType.person)).map (authoredRelation pe) ++
      (entities.filter fun e =>
        decide (e.entity_type = EntityType.concept)).map (partOfRelation pe)),
        s.source_entity_id = pe.entity_id := by
      intro s hs
      rcases List.mem_append.mp hs with hm | hm
      · obtain ⟨a, _, rfl⟩ := List.mem_map.mp hm
        rfl
      · obtain ⟨c, _, rfl⟩ := List.mem_map.mp hm
        rfl
    have hpq : pe.entity_id ≠ q.entity_id := by
      intro hh
      exact hqne (hinj q hq pe hpe_mem hh.symm)
    constructor
    · rw [hsrc r hr]
      exact hpq
    · rcases List.mem_append.mp hr with hm | hm
      · obtain ⟨a, ha, rfl⟩ := List.mem_map.mp hm
        have hmf := List.mem_filter.mp ha
        intro hh
        have hae := hinj a hmf.1 q hq hh
        have hat : a.entity_type = EntityType.person := by simpa using hmf.2
        rw [hae, hqt] at hat
        exact absurd hat (by decide)
      · obtain ⟨c, hc, rfl⟩ := List.mem_map.mp hm
        have hmf := List.mem_filter.mp hc
        intro hh
        have hce := hinj c hmf.1 q hq hh
        have hct : c.entity_type = EntityType.concept := by simpa using hmf.2
        rw [hce, hqt] at hct
        exact absurd hct (by decide)

/-- The concrete entity list of the C10 witness: two paper entities
(ids 0 and 1), one person (id 2), one concept (id 3). -/
def c10Entities : List Entity :=
  [{ entity_id := 0, name := "T", entity_type := EntityType.paper,
     aliases := [], description := some "S", source_segments := [9],
     confidence := 1 },
   { entity_id := 1, name := "T2", entity_type := EntityType.paper,
     aliases := [], description := none, source_segments := [9],
     confidence := 1 },
   { entity_id := 2, name := "Alice", entity_type := EntityType.person,
     aliases := [], description := none, source_segments := [9],
     confidence := 1 },
   { entity_id := 3, name := "cs.AI", entity_type := EntityType.concept,
     aliases := [], description := none, source_segments := [9],
     confidence := 1 }]

/-- The first paper entity of `c10Entities`. -/
def c10FirstPaper : Entity :=
  { entity_id := 0, name := "T", entity_type := EntityType.paper,
    aliases := [], description := some "S", source_segments := [9],
    confidence := 1 }

/-- Witness for C10: on `c10Entities` the derivation succeeds, every
relation is sourced at id 0 (the first paper entity), the second paper
entity (id 1) appears in no relation, and the concept entity receives its
`part_of` relation. -/
theorem C10_witness :
    ∃ rels, extract_relations "2301.12345" c10Entities = .ok rels ∧
      (∀ r ∈ rels, r.source_entity_id = c10FirstPaper.entity_id) ∧
      (∀ c ∈ c10Entities, c.entity_type = EntityType.concept →
        ∃ r ∈ rels, r.relation_type = RelationType.part_of ∧
          r.target_entity_id = c.entity_id) ∧
      (∀ q ∈ c10Entities, q.entity_type = EntityType.paper →
        q ≠ c10FirstPaper →
          ∀ r ∈ rels, r.source_entity_id ≠ q.entity_id ∧
            r.target_entity_id ≠ q.entity_id) :=
  C10_multi_paper "2301.12345" c10Entities c10FirstPaper
    [{ entity_id := 1, name := "T2", entity_type := EntityType.paper,
       aliases := [], description := none, source_segments := [9],
       confidence := 1 }]
    (by decide) (by decide)

end KAS
